import Mathlib

/-!
# Verification of the `timeoutd` timeout decorator

A shallow embedding of the `timeoutd` Python package: the signal-based
(alarm) strategy from `timeoutd/wrappers.py`, the multiprocessing
(worker) strategy `_Timeout` from `timeoutd/timeoutd.py`, the exception
thrower from `timeoutd/exceptions.py`, the decoration-time validation
from `timeoutd/timeout.py`, and — where a module is not part of the
sources (`timeoutd/converters.py`, `timeoutd/handlers.py`) — models
built from the specification, marked as such in their doc comments.

Durations and points in time are rationals (`ℚ`); the worker strategy's
poll loop is embedded as a fuel-indexed recursion over poll indices,
polling at times `k * pollInterval` after spawn, matching the
`while not self.ready: time.sleep(0.01)` loop of `_Timeout.__call__`.
-/

/-- Python runtime values, as far as the decorator inspects them:
`None`, numbers, strings, booleans, and opaque objects. -/
inductive Value where
  | vnone : Value
  | vnum : ℚ → Value
  | vstr : String → Value
  | vbool : Bool → Value
  | vobj : Nat → Value
deriving DecidableEq

/-- Python truthiness (`if x:`) for the values of `Value`. -/
def pyTruthy : Value → Bool
  | Value.vnone => false
  | Value.vnum q => q != 0
  | Value.vstr s => s != ""
  | Value.vbool b => b
  | Value.vobj _ => true

/-- Numeric reading of a value, used where the code does arithmetic on a
seconds value (`setitimer`, `limit + time.time()`). -/
def pyNum : Value → ℚ
  | Value.vnum q => q
  | Value.vbool b => if b then 1 else 0
  | _ => 0

/-- The Python classes the decorator's control flow distinguishes:
the exception classes used by the code and its tests, plus `int` (used
in a test as an invalid `exception_type`) and user-defined exception
classes deriving from `Exception`. -/
inductive PyClass where
  | baseExceptionClass : PyClass
  | exceptionClass : PyClass
  | osErrorClass : PyClass
  | timeoutErrorClass : PyClass
  | runtimeErrorClass : PyClass
  | stopIterationClass : PyClass
  | valueErrorClass : PyClass
  | typeErrorClass : PyClass
  | intClass : PyClass
  | userExceptionClass : Nat → PyClass
deriving DecidableEq

/-- The inheritance chain of each class (the class itself first), per
the CPython exception hierarchy: `TimeoutError <: OSError <: Exception
<: BaseException`; user classes derive directly from `Exception`;
`int` is not an exception class. -/
def ancestors : PyClass → List PyClass
  | PyClass.baseExceptionClass => [PyClass.baseExceptionClass]
  | PyClass.exceptionClass => [PyClass.exceptionClass, PyClass.baseExceptionClass]
  | PyClass.osErrorClass =>
      [PyClass.osErrorClass, PyClass.exceptionClass, PyClass.baseExceptionClass]
  | PyClass.timeoutErrorClass =>
      [PyClass.timeoutErrorClass, PyClass.osErrorClass, PyClass.exceptionClass,
       PyClass.baseExceptionClass]
  | PyClass.runtimeErrorClass =>
      [PyClass.runtimeErrorClass, PyClass.exceptionClass, PyClass.baseExceptionClass]
  | PyClass.stopIterationClass =>
      [PyClass.stopIterationClass, PyClass.exceptionClass, PyClass.baseExceptionClass]
  | PyClass.valueErrorClass =>
      [PyClass.valueErrorClass, PyClass.exceptionClass, PyClass.baseExceptionClass]
  | PyClass.typeErrorClass =>
      [PyClass.typeErrorClass, PyClass.exceptionClass, PyClass.baseExceptionClass]
  | PyClass.intClass => [PyClass.intClass]
  | PyClass.userExceptionClass n =>
      [PyClass.userExceptionClass n, PyClass.exceptionClass, PyClass.baseExceptionClass]

/-- `issubclass(a, b)`; also the test an `except b:` clause applies to a
raised instance of class `a`. -/
def subclassOf (a b : PyClass) : Bool := (ancestors a).contains b

/-- A raised Python exception: its class and the positional arguments it
was constructed with. -/
structure PyExc where
  cls : PyClass
  args : List Value
deriving DecidableEq

/-- `_raise_exception` from `timeoutd/exceptions.py`, as the exception
value it raises: with no message the exception is constructed bare;
with a message, the message is its sole constructor argument. -/
def raise_exception (exception : PyClass) (exception_message : Option String) : PyExc :=
  match exception_message with
  | none => ⟨exception, []⟩
  | some m => ⟨exception, [Value.vstr m]⟩

instance {ε α : Type} [DecidableEq ε] [DecidableEq α] : DecidableEq (Except ε α) :=
  fun a b =>
    match a, b with
    | Except.ok x, Except.ok y => decidable_of_iff (x = y) (by simp)
    | Except.error x, Except.error y => decidable_of_iff (x = y) (by simp)
    | Except.ok _, Except.error _ => isFalse (by simp)
    | Except.error _, Except.ok _ => isFalse (by simp)

/-- Keyword arguments of a call, as an association list. -/
abbrev KwArgs := List (String × Value)

/-- Observable behaviour of one run of the wrapped function on given
arguments: how long it runs, whether it returns a value or raises, and
whether its published result can cross the process boundary intact
(pickling) under the worker strategy. -/
structure FunBehavior where
  duration : ℚ
  outcome : Except PyExc Value
  picklable : Bool
deriving DecidableEq

/-- The wrapped function: arguments determine the run's behaviour. -/
abbrev FunSpec := List Value → KwArgs → FunBehavior

/-- `kwargs.pop("timeout", seconds)`: the effective seconds value of one
invocation — the per-call override when present, else the
decoration-time value. -/
def effective_seconds (seconds : Value) (kwargs : KwArgs) : Value :=
  match kwargs.find? (fun p => p.1 == "timeout") with
  | some p => p.2
  | none => seconds

/-- The keyword arguments forwarded to the wrapped function: the
reserved `timeout` key is removed by the `pop`. -/
def forwarded_kwargs (kwargs : KwArgs) : KwArgs :=
  kwargs.filter (fun p => !(p.1 == "timeout"))

/-- Looking up the reserved `timeout` key of a call site. -/
def lookupTimeout (kwargs : KwArgs) : Option Value :=
  (kwargs.find? (fun p => p.1 == "timeout")).map (fun p => p.2)

/-- An installed SIGALRM handler: either the decorator's raising handler
(closed over an exception class and message) or any other handler. -/
inductive Handler where
  | installedRaise : PyClass → Option String → Handler
  | other : Nat → Handler
deriving DecidableEq

/-- The process state the alarm strategy touches: the installed SIGALRM
handler and the remaining real interval timer (`0` = disarmed). -/
structure SigState where
  handler : Handler
  timer : ℚ
deriving DecidableEq

/-- Body of `new_function` from `_signaler` in `timeoutd/wrappers.py`,
with the already-popped effective seconds (`new_seconds`) explicit.
Mirrors the source: if `new_seconds` is truthy, the raising handler is
installed and the interval timer armed; if the decoration-time
`seconds` is falsy the call returns directly (no `try/finally`);
otherwise the `finally` block disarms the timer and reinstalls the
previous handler whenever `new_seconds` was truthy. A run whose
duration exceeds an armed timer is interrupted by the handler, which
raises the configured exception. -/
def signaler_body (seconds new_seconds : Value) (exception_type : PyClass)
    (exception_message : Option String) (f : FunSpec) (args : List Value)
    (kwargs : KwArgs) (st : SigState) : Except PyExc Value × SigState :=
  let armed := pyTruthy new_seconds
  let t := pyNum new_seconds
  let stArm : SigState :=
    if armed then ⟨Handler.installedRaise exception_type exception_message, t⟩ else st
  let beh := f args kwargs
  let fired := armed && decide (t < beh.duration)
  let result : Except PyExc Value :=
    if fired then Except.error (raise_exception exception_type exception_message)
    else beh.outcome
  let stBody : SigState :=
    if fired then ⟨stArm.handler, 0⟩
    else if armed then ⟨stArm.handler, t - beh.duration⟩
    else stArm
  if !(pyTruthy seconds) then (result, stBody)
  else if armed then (result, ⟨st.handler, 0⟩)
  else (result, stBody)

/-- `new_function` from `_signaler` in `timeoutd/wrappers.py`: pop the
reserved `timeout` keyword argument (default: the decoration-time
seconds) and run the body on the remaining arguments. -/
def signaler_call (seconds : Value) (exception_type : PyClass)
    (exception_message : Option String) (f : FunSpec) (args : List Value)
    (kwargs : KwArgs) (st : SigState) : Except PyExc Value × SigState :=
  signaler_body seconds (effective_seconds seconds kwargs) exception_type
    exception_message f args (forwarded_kwargs kwargs) st

/-- Outcome of `_Timeout.cancel`: the worker was terminated, or an
exception was raised. -/
inductive CancelOutcome where
  | terminated : CancelOutcome
  | raised : PyExc → CancelOutcome
deriving DecidableEq

/-- `_Timeout.cancel` from `timeoutd/timeoutd.py`: if the worker process
is alive, terminate it; otherwise raise the configured exception via
`_raise_exception`. -/
def cancel (alive : Bool) (exception_type : PyClass)
    (exception_message : Option String) : CancelOutcome :=
  if alive then CancelOutcome.terminated
  else CancelOutcome.raised (raise_exception exception_type exception_message)

/-- The tagged message `_target` publishes on the single-slot queue:
`(True, value)` on success, `(False, exc)` for an exception its
`except Exception` clause catches. `none` when nothing reaches the
caller: the payload cannot be pickled across the process boundary, or
the exception escapes `except Exception`. -/
def published_result (beh : FunBehavior) : Option (Except PyExc Value) :=
  if beh.picklable then
    match beh.outcome with
    | Except.ok v => some (Except.ok v)
    | Except.error e =>
        if subclassOf e.cls PyClass.exceptionClass then some (Except.error e)
        else none
  else none

/-- Whether the worker's run ever fills the result queue. -/
def publishable (beh : FunBehavior) : Bool := (published_result beh).isSome

/-- `_Timeout.value` once `ready` holds: match on the published tag —
return the payload of `(True, load)`, re-raise the `load` of
`(False, load)`; with an empty queue the property returns `None`. -/
def queueResult (beh : FunBehavior) : Except PyExc Value :=
  match published_result beh with
  | some (Except.ok load) => Except.ok load
  | some (Except.error load) => Except.error load
  | none => Except.ok Value.vnone

/-- The poll interval of `_Timeout.__call__`'s
`while not self.ready: time.sleep(0.01)` loop, in seconds. -/
def pollInterval : ℚ := 1 / 100

/-- The `while not self.ready: time.sleep(0.01)` loop of
`_Timeout.__call__` followed by `return self.value`, polled at times
`k * pollInterval` after spawning the worker, with explicit fuel.

Each poll evaluates `ready`: if the limit is truthy and the deadline
has passed, `cancel()` runs first — raising the configured exception
when the worker is no longer alive, else terminating it — and then the
queue state is returned; the loop exits when the queue is full, and
`__call__` returns `self.value`. `none` means the loop was still
polling when the fuel ran out. -/
def pollLoop (limit : Value) (exception_type : PyClass)
    (exception_message : Option String) (beh : FunBehavior) :
    Nat → Nat → Bool → Option (Except PyExc Value)
  | 0, _, _ => none
  | fuel + 1, k, term =>
    let t : ℚ := (k : ℚ) * pollInterval
    let deadlinePassed := pyTruthy limit && decide (pyNum limit < t)
    let alive := !term && decide (t < beh.duration)
    let published := publishable beh && decide (beh.duration ≤ t)
    if deadlinePassed then
      match cancel alive exception_type exception_message with
      | CancelOutcome.raised e => some (Except.error e)
      | CancelOutcome.terminated =>
          if published then some (queueResult beh)
          else pollLoop limit exception_type exception_message beh fuel (k + 1) true
    else
      if published then some (queueResult beh)
      else pollLoop limit exception_type exception_message beh fuel (k + 1) term

/-- `_Timeout.__call__` with the popped effective limit explicit: spawn
the worker on the given arguments and poll until a result is available
or the deadline path raises. -/
def worker_body (limit : Value) (exception_type : PyClass)
    (exception_message : Option String) (f : FunSpec) (args : List Value)
    (kwargs : KwArgs) (fuel : Nat) : Option (Except PyExc Value) :=
  pollLoop limit exception_type exception_message (f args kwargs) fuel 0 false

/-- `new_mt_function` from `_signaler` in `timeoutd/wrappers.py`
composed with `_Timeout.__call__`: a fresh `_Timeout` wrapper is built
per invocation, `kwargs.pop("timeout", ...)` resolves the effective
limit, and the worker runs on the remaining arguments. -/
def worker_call (seconds : Value) (exception_type : PyClass)
    (exception_message : Option String) (f : FunSpec) (args : List Value)
    (kwargs : KwArgs) (fuel : Nat) : Option (Except PyExc Value) :=
  worker_body (effective_seconds seconds kwargs) exception_type
    exception_message f args (forwarded_kwargs kwargs) fuel

example :
    worker_call (Value.vnum (1/10)) PyClass.timeoutErrorClass none
      (fun _ _ => ⟨2, Except.ok (Value.vnum 3), true⟩) [] [] 13
      = some (Except.error ⟨PyClass.timeoutErrorClass, []⟩) := by
  norm_num [worker_call, worker_body, pollLoop, effective_seconds,
    forwarded_kwargs, pyTruthy, pyNum, raise_exception, cancel,
    publishable, published_result, pollInterval, queueResult]

example :
    worker_call (Value.vnum (1/10)) PyClass.timeoutErrorClass none
      (fun _ _ => ⟨3/100, Except.ok (Value.vnum 3), true⟩) [] [] 13
      = some (Except.ok (Value.vnum 3)) := by
  norm_num [worker_call, worker_body, pollLoop, effective_seconds,
    forwarded_kwargs, pyTruthy, pyNum, raise_exception, cancel,
    publishable, published_result, pollInterval, queueResult]

example :
    (signaler_call (Value.vnum (1/10)) PyClass.timeoutErrorClass none
      (fun _ _ => ⟨2, Except.ok (Value.vnum 3), true⟩) [] []
      ⟨Handler.other 0, 0⟩).1
      = Except.error ⟨PyClass.timeoutErrorClass, []⟩ := by
  norm_num [signaler_call, signaler_body, effective_seconds, forwarded_kwargs,
    pyTruthy, pyNum, raise_exception]

example :
    (signaler_call (Value.vnum (1/10)) PyClass.timeoutErrorClass none
      (fun _ _ => ⟨1/20, Except.ok (Value.vnum 3), true⟩) [] []
      ⟨Handler.other 0, 0⟩).1
      = Except.ok (Value.vnum 3) := by
  norm_num [signaler_call, signaler_body, effective_seconds, forwarded_kwargs,
    pyTruthy, pyNum, raise_exception]

/-- A Python number as the `retries` argument may receive one: its
rational value and whether it is an `int` instance. -/
structure PyNumber where
  val : ℚ
  isInt : Bool
deriving DecidableEq

/-- The decoration-time validation of `timeout` in `timeoutd/timeout.py`,
in source order: reject an `exception_type` that is not a subclass of
`Exception` with a `TypeError`; default `retries` to `0` when `None`;
reject a negative `retries` with a `ValueError`; reject a non-`int`
`retries` with a `TypeError`; otherwise decoration succeeds and
returns the decorated callable. -/
def timeout_validate (exception_type : PyClass) (retries : Option PyNumber) :
    Except PyExc Unit :=
  if !(subclassOf exception_type PyClass.exceptionClass) then
    Except.error ⟨PyClass.typeErrorClass,
      [Value.vstr "exception_type must be a subclass of Exception"]⟩
  else
    let r := retries.getD ⟨0, true⟩
    if r.val < 0 then
      Except.error ⟨PyClass.valueErrorClass,
        [Value.vstr "retries must be greater than or equal to 0"]⟩
    else if !r.isInt then
      Except.error ⟨PyClass.typeErrorClass,
        [Value.vstr "retries must be an integer"]⟩
    else Except.ok ()

example : timeout_validate PyClass.intClass none
    = Except.error ⟨PyClass.typeErrorClass,
        [Value.vstr "exception_type must be a subclass of Exception"]⟩ := by decide

example : timeout_validate PyClass.timeoutErrorClass (some ⟨-3/2, false⟩)
    = Except.error ⟨PyClass.valueErrorClass,
        [Value.vstr "retries must be greater than or equal to 0"]⟩ := by
  norm_num [timeout_validate, subclassOf, ancestors]

/-- The `limit` argument of `time_to_seconds`: absent, a plain number of
seconds, an absolute deadline (`datetime`), or a duration
(`timedelta`). -/
inductive TimeLimit where
  | absent : TimeLimit
  | num : ℚ → TimeLimit
  | deadline : ℚ → TimeLimit
  | duration : ℚ → TimeLimit
deriving DecidableEq

/-- Modelled from the spec: `time_to_seconds` of `timeoutd/converters.py`
is not among the sources (only its callers and tests are). Spec §4.1:
a numeric `limit` contributes its seconds, a duration its seconds, an
absolute deadline contributes `deadline − now` evaluated when `resolve`
runs; the independent `seconds + minutes×60 + hours×3600` components
are always summed in; with no inputs at all the result is `0`. -/
def time_to_seconds (limit : TimeLimit) (now : ℚ)
    (seconds minutes hours : Option ℚ) : ℚ :=
  (match limit with
   | TimeLimit.absent => 0
   | TimeLimit.num q => q
   | TimeLimit.deadline t => t - now
   | TimeLimit.duration q => q)
  + seconds.getD 0 + minutes.getD 0 * 60 + hours.getD 0 * 3600

example : time_to_seconds (TimeLimit.num (101/20)) 0 none none none = 101/20 := by
  norm_num [time_to_seconds]

example : time_to_seconds TimeLimit.absent 0 none (some (7/2)) none = 210 := by
  norm_num [time_to_seconds]

/-- `_exception_handler` from `timeoutd/wrappers.py`: run the wrapped
call; an exception the `except exception_type:` clause applies to is
replaced by the result of calling `on_timeout()`; anything else
propagates. -/
def exception_handler_core (result : Except PyExc Value)
    (on_timeout : Unit → Except PyExc Value) (exception_type : PyClass) :
    Except PyExc Value :=
  match result with
  | Except.ok v => Except.ok v
  | Except.error e =>
      if subclassOf e.cls exception_type then on_timeout ()
      else Except.error e

/-- Modelled from the spec: `exception_handler` of
`timeoutd/handlers.py` is not among the sources (only its caller
`decorate` in `timeoutd/timeout.py` and `_exception_handler` in
`timeoutd/wrappers.py` are). Spec §4.4: on catching the configured
error kind it invokes the configured fallback callable with its
configured positional/keyword arguments and returns that value; the
defaults for absent argument tuples are empty. Built on
`_exception_handler` by closing the fallback over its arguments. -/
def exception_handler (result : Except PyExc Value)
    (on_timeout : List Value → KwArgs → Except PyExc Value)
    (exception_type : PyClass) (on_timeout_args : Option (List Value))
    (on_timeout_kwargs : Option KwArgs) : Except PyExc Value :=
  exception_handler_core result
    (fun _ => on_timeout (on_timeout_args.getD []) (on_timeout_kwargs.getD []))
    exception_type

/-- Modelled from the spec: the retry pipeline `decorate` in
`timeoutd/timeout.py` assembles from `retry_handler` and
`exception_handler` of `timeoutd/handlers.py`, which is not among the
sources. Spec §4.5/§4.6/§8: up to `retries + 1` total attempts of the
entire bounded call, each a fresh executor invocation; an attempt whose
configured-kind error is caught while attempts remain triggers the next
attempt; the exhausted final attempt falls back to the user-supplied
`on_timeout` when present, else its error propagates; an error of any
other kind propagates immediately. Arguments: `E i` is the outcome of
the `i`-th executor attempt, `remaining` the attempts still allowed
after the current one, `i` the index of the current attempt. Returns
the pipeline's result and the number of executor attempts made. -/
def retry_go (E : Nat → Except PyExc Value) (exception_type : PyClass)
    (on_timeout : Option (Unit → Except PyExc Value)) :
    Nat → Nat → Except PyExc Value × Nat
  | remaining, i =>
    match E i with
    | Except.ok v => (Except.ok v, i + 1)
    | Except.error e =>
        if subclassOf e.cls exception_type then
          match remaining with
          | Nat.succ r => retry_go E exception_type on_timeout r (i + 1)
          | 0 =>
              match on_timeout with
              | some fb => (fb (), i + 1)
              | none => (Except.error e, i + 1)
        else (Except.error e, i + 1)

/-- The assembled pipeline for `retries = N`: `N` attempts may be
retried after the first. -/
def retry_pipeline (E : Nat → Except PyExc Value) (exception_type : PyClass)
    (on_timeout : Option (Unit → Except PyExc Value)) (retries : Nat) :
    Except PyExc Value × Nat :=
  retry_go E exception_type on_timeout retries 0

example :
    retry_pipeline (fun _ => Except.error ⟨PyClass.timeoutErrorClass, []⟩)
      PyClass.timeoutErrorClass none 2
      = (Except.error ⟨PyClass.timeoutErrorClass, []⟩, 3) := by
  norm_num [retry_pipeline, retry_go, subclassOf, ancestors]

example :
    retry_pipeline
      (fun i => if i < 2 then Except.error ⟨PyClass.timeoutErrorClass, []⟩
                else Except.ok (Value.vnum 5))
      PyClass.timeoutErrorClass none 4
      = (Except.ok (Value.vnum 5), 3) := by
  norm_num [retry_pipeline, retry_go, subclassOf, ancestors]

theorem pollInterval_pos : 0 < pollInterval := by norm_num [pollInterval]

theorem mulPI_mono {a b : Nat} (h : a ≤ b) :
    (a : ℚ) * pollInterval ≤ (b : ℚ) * pollInterval := by
  have hab : (a : ℚ) ≤ (b : ℚ) := by exact_mod_cast h
  exact mul_le_mul_of_nonneg_right hab (le_of_lt pollInterval_pos)

theorem queueResult_of_publishable (beh : FunBehavior)
    (hp : publishable beh = true) : queueResult beh = beh.outcome := by
  simp only [publishable, published_result] at hp
  simp only [queueResult, published_result]
  cases hpick : beh.picklable <;> rw [hpick] at hp
  · simp at hp
  · cases ho : beh.outcome with
    | ok v => simp [hpick, ho]
    | error e =>
      by_cases hs : subclassOf e.cls PyClass.exceptionClass = true
      · simp [hpick, ho, hs]
      · rw [ho] at hp
        simp [hs] at hp

/-- One unfolding step of the poll loop, with the `let` bindings of the
definition spelled out. -/
theorem pollLoop_succ (limit : Value) (excT : PyClass) (msg : Option String)
    (beh : FunBehavior) (fuel k : Nat) (term : Bool) :
    pollLoop limit excT msg beh (fuel + 1) k term
      = (if pyTruthy limit && decide (pyNum limit < (k : ℚ) * pollInterval) then
           match cancel (!term && decide ((k : ℚ) * pollInterval < beh.duration))
               excT msg with
           | CancelOutcome.raised e => some (Except.error e)
           | CancelOutcome.terminated =>
               if publishable beh && decide (beh.duration ≤ (k : ℚ) * pollInterval)
               then some (queueResult beh)
               else pollLoop limit excT msg beh fuel (k + 1) true
         else
           if publishable beh && decide (beh.duration ≤ (k : ℚ) * pollInterval)
           then some (queueResult beh)
           else pollLoop limit excT msg beh fuel (k + 1) term) := rfl

theorem pollLoop_deadline_term (limit : Value) (excT : PyClass)
    (msg : Option String) (beh : FunBehavior) (fuel k : Nat)
    (hT : pyTruthy limit = true)
    (hk : pyNum limit < (k : ℚ) * pollInterval) :
    pollLoop limit excT msg beh (fuel + 1) k true
      = some (Except.error (raise_exception excT msg)) := by
  rw [pollLoop_succ]
  simp [hT, hk, cancel]

theorem pollLoop_deadline_now (limit : Value) (excT : PyClass)
    (msg : Option String) (beh : FunBehavior) (f k : Nat)
    (hT : pyTruthy limit = true)
    (hk : pyNum limit < (k : ℚ) * pollInterval) :
    pollLoop limit excT msg beh (f + 2) k false
      = some (Except.error (raise_exception excT msg)) := by
  by_cases hc : (k : ℚ) * pollInterval < beh.duration
  · have hnp : ¬ (beh.duration ≤ (k : ℚ) * pollInterval) := not_le.mpr hc
    have hstep : pollLoop limit excT msg beh (f + 1 + 1) k false
        = pollLoop limit excT msg beh (f + 1) (k + 1) true := by
      rw [pollLoop_succ]
      simp [hT, hk, hc, hnp, cancel]
    rw [show f + 2 = f + 1 + 1 from rfl, hstep]
    exact pollLoop_deadline_term limit excT msg beh f (k + 1) hT
      (lt_of_lt_of_le hk (mulPI_mono (Nat.le_succ k)))
  · rw [show f + 2 = f + 1 + 1 from rfl, pollLoop_succ]
    simp [hT, hk, hc, cancel]

theorem pollLoop_timeout (limit : Value) (excT : PyClass)
    (msg : Option String) (beh : FunBehavior)
    (hT : pyTruthy limit = true) (hd : pyNum limit < beh.duration) :
    ∀ (n k fuel : Nat), pyNum limit < ((k + n : Nat) : ℚ) * pollInterval →
      n + 2 ≤ fuel →
      pollLoop limit excT msg beh fuel k false
        = some (Except.error (raise_exception excT msg)) := by
  intro n
  induction n with
  | zero =>
    intro k fuel hk hfuel
    obtain ⟨f, rfl⟩ : ∃ f, fuel = f + 2 := ⟨fuel - 2, by omega⟩
    exact pollLoop_deadline_now limit excT msg beh f k hT (by simpa using hk)
  | succ n ih =>
    intro k fuel hk hfuel
    by_cases hdl : pyNum limit < (k : ℚ) * pollInterval
    · obtain ⟨f, rfl⟩ : ∃ f, fuel = f + 2 := ⟨fuel - 2, by omega⟩
      exact pollLoop_deadline_now limit excT msg beh f k hT hdl
    · obtain ⟨f, rfl⟩ : ∃ f, fuel = f + 1 := ⟨fuel - 1, by omega⟩
      have hkPI : (k : ℚ) * pollInterval ≤ pyNum limit := not_lt.mp hdl
      have hnp : ¬ (beh.duration ≤ (k : ℚ) * pollInterval) :=
        not_le.mpr (lt_of_le_of_lt hkPI hd)
      have hstep : pollLoop limit excT msg beh (f + 1) k false
          = pollLoop limit excT msg beh f (k + 1) false := by
        rw [pollLoop_succ]
        simp [hdl, hnp]
      rw [hstep]
      refine ih (k + 1) f ?_ (by omega)
      have heq : k + (n + 1) = (k + 1) + n := by omega
      rw [heq] at hk
      exact hk

theorem pollLoop_published (limit : Value) (excT : PyClass)
    (msg : Option String) (beh : FunBehavior)
    (hp : publishable beh = true) :
    ∀ (n k fuel : Nat), beh.duration ≤ ((k + n : Nat) : ℚ) * pollInterval →
      (pyTruthy limit = true →
        ((k + n : Nat) : ℚ) * pollInterval ≤ pyNum limit) →
      n + 1 ≤ fuel →
      pollLoop limit excT msg beh fuel k false = some beh.outcome := by
  intro n
  induction n with
  | zero =>
    intro k fuel hk hdl hfuel
    obtain ⟨f, rfl⟩ : ∃ f, fuel = f + 1 := ⟨fuel - 1, by omega⟩
    have hk' : beh.duration ≤ (k : ℚ) * pollInterval := by simpa using hk
    rw [pollLoop_succ]
    cases hTr : pyTruthy limit
    · simp [hp, hk', queueResult_of_publishable beh hp]
    · have h2 : ¬ (pyNum limit < (k : ℚ) * pollInterval) :=
        not_lt.mpr (by simpa using hdl hTr)
      simp [h2, hp, hk', queueResult_of_publishable beh hp]
  | succ n ih =>
    intro k fuel hk hdl hfuel
    obtain ⟨f, rfl⟩ : ∃ f, fuel = f + 1 := ⟨fuel - 1, by omega⟩
    have hdl' : pyTruthy limit = true →
        ¬ (pyNum limit < (k : ℚ) * pollInterval) := by
      intro hTr
      exact not_lt.mpr (le_trans (mulPI_mono (Nat.le_add_right k (n + 1))) (hdl hTr))
    rw [pollLoop_succ]
    by_cases hc : beh.duration ≤ (k : ℚ) * pollInterval
    · cases hTr : pyTruthy limit
      · simp [hp, hc, queueResult_of_publishable beh hp]
      · simp [hdl' hTr, hp, hc, queueResult_of_publishable beh hp]
    · have hrec : pollLoop limit excT msg beh f (k + 1) false
          = some beh.outcome := by
        refine ih (k + 1) f ?_ ?_ (by omega)
        · have heq : k + (n + 1) = (k + 1) + n := by omega
          rw [heq] at hk
          exact hk
        · intro hTr
          have heq : k + (n + 1) = (k + 1) + n := by omega
          rw [heq] at hdl
          exact hdl hTr
      cases hTr : pyTruthy limit
      · simp [hc, hrec]
      · simp [hdl' hTr, hc, hrec]

/-- One unfolding step of `retry_go`. -/
theorem retry_go_step (E : Nat → Except PyExc Value) (excT : PyClass)
    (onT : Option (Unit → Except PyExc Value)) (remaining i : Nat) :
    retry_go E excT onT remaining i
      = (match E i with
         | Except.ok v => (Except.ok v, i + 1)
         | Except.error e =>
             if subclassOf e.cls excT then
               match remaining with
               | Nat.succ r => retry_go E excT onT r (i + 1)
               | 0 =>
                   match onT with
                   | some fb => (fb (), i + 1)
                   | none => (Except.error e, i + 1)
             else (Except.error e, i + 1)) := by
  rw [retry_go]

theorem retry_go_all_timeout (E : Nat → Except PyExc Value) (excT : PyClass)
    (onT : Option (Unit → Except PyExc Value)) (te : PyExc)
    (hs : subclassOf te.cls excT = true) :
    ∀ (r i : Nat), (∀ j, j ≤ r → E (i + j) = Except.error te) →
      retry_go E excT onT r i
        = (match onT with
           | some fb => (fb (), i + r + 1)
           | none => (Except.error te, i + r + 1)) := by
  intro r
  induction r with
  | zero =>
    intro i hE
    have h0 : E i = Except.error te := by simpa using hE 0 (le_refl 0)
    rw [retry_go_step]
    cases onT <;> simp [h0, hs]
  | succ r ih =>
    intro i hE
    have h0 : E i = Except.error te := by simpa using hE 0 (Nat.zero_le _)
    have hstep : retry_go E excT onT (r + 1) i = retry_go E excT onT r (i + 1) := by
      rw [retry_go_step]
      simp [h0, hs]
    rw [hstep, ih (i + 1) ?_]
    · have heq : i + 1 + r + 1 = i + (r + 1) + 1 := by omega
      cases onT <;> simp [heq]
    · intro j hj
      have hE' := hE (j + 1) (by omega)
      have heq : i + (j + 1) = i + 1 + j := by omega
      rw [heq] at hE'
      exact hE'

theorem retry_go_first_success (E : Nat → Except PyExc Value) (excT : PyClass)
    (onT : Option (Unit → Except PyExc Value)) (te : PyExc)
    (hs : subclassOf te.cls excT = true) :
    ∀ (j r i : Nat) (v : Value), j ≤ r →
      (∀ l, l < j → E (i + l) = Except.error te) →
      E (i + j) = Except.ok v →
      retry_go E excT onT r i = (Except.ok v, i + j + 1) := by
  intro j
  induction j with
  | zero =>
    intro r i v _ _ hok
    rw [retry_go_step]
    simp at hok
    simp [hok]
  | succ j ih =>
    intro r i v hjr hfail hok
    obtain ⟨r', rfl⟩ : ∃ r', r = r' + 1 := ⟨r - 1, by omega⟩
    have h0 : E i = Except.error te := by simpa using hfail 0 (Nat.succ_pos j)
    have hstep : retry_go E excT onT (r' + 1) i
        = retry_go E excT onT r' (i + 1) := by
      rw [retry_go_step]
      simp [h0, hs]
    rw [hstep]
    have hok' : E (i + 1 + j) = Except.ok v := by
      have heq : i + (j + 1) = i + 1 + j := by omega
      rw [heq] at hok
      exact hok
    have hres := ih r' (i + 1) v (by omega) ?_ hok'
    · rw [hres]
      have heq : i + 1 + j + 1 = i + (j + 1) + 1 := by omega
      rw [heq]
    · intro l hl
      have := hfail (l + 1) (by omega)
      have heq : i + (l + 1) = i + 1 + l := by omega
      rw [heq] at this
      exact this

theorem retry_go_other_error (E : Nat → Except PyExc Value) (excT : PyClass)
    (onT : Option (Unit → Except PyExc Value)) (e : PyExc) (r i : Nat)
    (he : E i = Except.error e) (hs : subclassOf e.cls excT = false) :
    retry_go E excT onT r i = (Except.error e, i + 1) := by
  rw [retry_go_step]
  simp [he, hs]

theorem retry_go_attempt_bound (E : Nat → Except PyExc Value) (excT : PyClass)
    (onT : Option (Unit → Except PyExc Value)) :
    ∀ (r i : Nat), (retry_go E excT onT r i).2 ≤ i + r + 1 := by
  intro r
  induction r with
  | zero =>
    intro i
    rw [retry_go_step]
    cases hE : E i with
    | ok v => simp
    | error e =>
      by_cases hs : subclassOf e.cls excT = true
      · cases onT <;> simp [hs]
      · simp [hs]
  | succ r ih =>
    intro i
    rw [retry_go_step]
    cases hE : E i with
    | ok v => simp
    | error e =>
      by_cases hs : subclassOf e.cls excT = true
      · simp [hs]
        have := ih (i + 1)
        omega
      · simp [hs]

/-- The result of the alarm-strategy body: the configured exception when
the armed timer fires before the run finishes, else the run's own
outcome. The initial signal state never influences the result. -/
theorem signaler_body_fst (seconds new_seconds : Value) (excT : PyClass)
    (msg : Option String) (f : FunSpec) (args : List Value) (kwargs : KwArgs)
    (st : SigState) :
    (signaler_body seconds new_seconds excT msg f args kwargs st).1
      = (if pyTruthy new_seconds
            && decide (pyNum new_seconds < (f args kwargs).duration)
         then Except.error (raise_exception excT msg)
         else (f args kwargs).outcome) := by
  simp only [signaler_body, apply_ite (f := Prod.fst)]
  split <;> simp

theorem subclassOf_self (c : PyClass) : subclassOf c c = true := by
  cases c <;> simp [subclassOf, ancestors]

theorem raise_exception_cls (excT : PyClass) (msg : Option String) :
    (raise_exception excT msg).cls = excT := by
  cases msg <;> rfl

/-- C7: `cancel()` terminates the worker process if and only if the
worker is still alive; if it is not alive, it instead directly raises
the configured error with the configured message — the branch taken is
decided solely by the worker's liveness. -/
theorem spec_c7_cancel_liveness (alive : Bool) (excT : PyClass)
    (msg : Option String) :
    (cancel alive excT msg = CancelOutcome.terminated ↔ alive = true)
    ∧ (alive = false →
        cancel alive excT msg
          = CancelOutcome.raised (raise_exception excT msg)) := by
  cases alive <;> simp [cancel]

/-- Witness for C7: a worker that already exited (`alive = false`) makes
`cancel` raise the configured error; an alive one is terminated. -/
theorem spec_c7_cancel_liveness_witness :
    cancel false PyClass.timeoutErrorClass (some "Timeout exceeded.")
      = CancelOutcome.raised
          ⟨PyClass.timeoutErrorClass, [Value.vstr "Timeout exceeded."]⟩
    ∧ cancel true PyClass.timeoutErrorClass (some "Timeout exceeded.")
      = CancelOutcome.terminated := by
  constructor
  · exact (spec_c7_cancel_liveness false PyClass.timeoutErrorClass
      (some "Timeout exceeded.")).2 rfl
  · exact (spec_c7_cancel_liveness true PyClass.timeoutErrorClass
      (some "Timeout exceeded.")).1.mpr rfl

/-- C8: all configuration validation fails fast at decoration time: a
non-`Exception` `exception_type` raises the `TypeError` with its exact
message, a negative `retries` the `ValueError`, a non-integer
`retries` ≥ 0 the `TypeError`, and a valid configuration raises
nothing at decoration. -/
theorem spec_c8_validation (et : PyClass) (r : PyNumber) :
    (subclassOf et PyClass.exceptionClass = false →
      timeout_validate et (some r)
        = Except.error ⟨PyClass.typeErrorClass,
            [Value.vstr "exception_type must be a subclass of Exception"]⟩
      ∧ timeout_validate et none
        = Except.error ⟨PyClass.typeErrorClass,
            [Value.vstr "exception_type must be a subclass of Exception"]⟩)
    ∧ (subclassOf et PyClass.exceptionClass = true → r.val < 0 →
      timeout_validate et (some r)
        = Except.error ⟨PyClass.valueErrorClass,
            [Value.vstr "retries must be greater than or equal to 0"]⟩)
    ∧ (subclassOf et PyClass.exceptionClass = true → 0 ≤ r.val →
       r.isInt = false →
      timeout_validate et (some r)
        = Except.error ⟨PyClass.typeErrorClass,
            [Value.vstr "retries must be an integer"]⟩)
    ∧ (subclassOf et PyClass.exceptionClass = true → 0 ≤ r.val →
       r.isInt = true →
      timeout_validate et (some r) = Except.ok ())
    ∧ (subclassOf et PyClass.exceptionClass = true →
      timeout_validate et none = Except.ok ()) := by
  refine ⟨fun h => ⟨?_, ?_⟩, fun h hneg => ?_, fun h hge hint => ?_,
    fun h hge hint => ?_, fun h => ?_⟩
  · simp [timeout_validate, h]
  · simp [timeout_validate, h]
  · simp [timeout_validate, h, hneg]
  · simp [timeout_validate, h, not_lt.mpr hge, hint]
  · simp [timeout_validate, h, not_lt.mpr hge, hint]
  · norm_num [timeout_validate, h]

/-- Witness for C8 at concrete inputs: `int` as exception type, retries
`-1`, retries `11/10`, and a valid configuration. -/
theorem spec_c8_validation_witness :
    timeout_validate PyClass.intClass none
      = Except.error ⟨PyClass.typeErrorClass,
          [Value.vstr "exception_type must be a subclass of Exception"]⟩
    ∧ timeout_validate PyClass.timeoutErrorClass (some ⟨-1, true⟩)
      = Except.error ⟨PyClass.valueErrorClass,
          [Value.vstr "retries must be greater than or equal to 0"]⟩
    ∧ timeout_validate PyClass.timeoutErrorClass (some ⟨11/10, false⟩)
      = Except.error ⟨PyClass.typeErrorClass,
          [Value.vstr "retries must be an integer"]⟩
    ∧ timeout_validate PyClass.timeoutErrorClass (some ⟨1, true⟩)
      = Except.ok () := by
  refine ⟨((spec_c8_validation PyClass.intClass ⟨0, true⟩).1 (by decide)).2,
    (spec_c8_validation PyClass.timeoutErrorClass ⟨-1, true⟩).2.1 (by decide)
      (by norm_num),
    (spec_c8_validation PyClass.timeoutErrorClass ⟨11/10, false⟩).2.2.1
      (by decide) (by norm_num) rfl,
    (spec_c8_validation PyClass.timeoutErrorClass ⟨1, true⟩).2.2.2.1
      (by decide) (by norm_num) rfl⟩

/-- C9: the resolved bound in seconds is the arithmetic sum of the
contributions — a numeric or duration limit contributes its seconds, an
absolute deadline contributes `deadline − now` at resolution time, the
independent `seconds + minutes×60 + hours×3600` components are always
summed in, and with no inputs at all the result is `0`. -/
theorem spec_c9_resolved_sum (q t now : ℚ) (s m h : Option ℚ) :
    time_to_seconds (TimeLimit.num q) now s m h
        = q + s.getD 0 + m.getD 0 * 60 + h.getD 0 * 3600
    ∧ time_to_seconds (TimeLimit.duration q) now s m h
        = q + s.getD 0 + m.getD 0 * 60 + h.getD 0 * 3600
    ∧ time_to_seconds (TimeLimit.deadline t) now s m h
        = (t - now) + s.getD 0 + m.getD 0 * 60 + h.getD 0 * 3600
    ∧ time_to_seconds TimeLimit.absent now s m h
        = s.getD 0 + m.getD 0 * 60 + h.getD 0 * 3600
    ∧ time_to_seconds TimeLimit.absent now none none none = 0 := by
  refine ⟨rfl, rfl, rfl, by simp [time_to_seconds], by norm_num [time_to_seconds]⟩

/-- C10: the non-negativity check on `retries` runs before the
integer-type check, so a negative non-integral `retries` raises the
`ValueError`, and the `TypeError` for non-integer retries is reachable
only for non-integral values that are at least `0`. -/
theorem spec_c10_negative_before_type (et : PyClass) (r : PyNumber)
    (hsub : subclassOf et PyClass.exceptionClass = true) :
    (r.val < 0 →
      timeout_validate et (some r)
        = Except.error ⟨PyClass.valueErrorClass,
            [Value.vstr "retries must be greater than or equal to 0"]⟩)
    ∧ (timeout_validate et (some r)
        = Except.error ⟨PyClass.typeErrorClass,
            [Value.vstr "retries must be an integer"]⟩
       → 0 ≤ r.val ∧ r.isInt = false) := by
  constructor
  · intro hneg
    simp [timeout_validate, hsub, hneg]
  · intro heq
    by_cases hneg : r.val < 0
    · simp [timeout_validate, hsub, hneg] at heq
    · cases hint : r.isInt
      · exact ⟨not_lt.mp hneg, rfl⟩
      · simp [timeout_validate, hsub, hneg, hint] at heq

/-- Witness for C10: `retries = -3/2` (negative and non-integral) raises
the `ValueError`, and the `TypeError` branch taken at `retries = 3/2`
entails non-negativity and non-integrality. -/
theorem spec_c10_negative_before_type_witness :
    timeout_validate PyClass.timeoutErrorClass (some ⟨-3/2, false⟩)
      = Except.error ⟨PyClass.valueErrorClass,
          [Value.vstr "retries must be greater than or equal to 0"]⟩
    ∧ (0 ≤ (3/2 : ℚ) ∧ (false : Bool) = false) := by
  constructor
  · exact (spec_c10_negative_before_type PyClass.timeoutErrorClass
      ⟨-3/2, false⟩ (by decide)).1 (by norm_num)
  · exact (spec_c10_negative_before_type PyClass.timeoutErrorClass
      ⟨3/2, false⟩ (by decide)).2 (by norm_num [timeout_validate, subclassOf, ancestors])

/-- C1: a call whose execution exceeds the effective time bound raises
the configured exception type under both the signal strategy and the
worker strategy; the raised error carries the configured message as its
sole constructor argument when one is configured, and is constructed
bare when none is. -/
theorem spec_c1_timeout_raises (seconds : Value) (excT : PyClass)
    (msg : Option String) (f : FunSpec) (args : List Value) (kwargs : KwArgs)
    (st : SigState) (K fuel : Nat)
    (hT : pyTruthy (effective_seconds seconds kwargs) = true)
    (hd : pyNum (effective_seconds seconds kwargs)
        < (f args (forwarded_kwargs kwargs)).duration)
    (hK : pyNum (effective_seconds seconds kwargs) < (K : ℚ) * pollInterval)
    (hfuel : K + 2 ≤ fuel) :
    (signaler_call seconds excT msg f args kwargs st).1
        = Except.error (raise_exception excT msg)
      ∧ worker_call seconds excT msg f args kwargs fuel
        = some (Except.error (raise_exception excT msg))
      ∧ (∀ m, raise_exception excT (some m) = ⟨excT, [Value.vstr m]⟩)
      ∧ raise_exception excT none = ⟨excT, []⟩ := by
  refine ⟨?_, ?_, fun m => rfl, rfl⟩
  · unfold signaler_call
    rw [signaler_body_fst]
    simp [hT, hd]
  · unfold worker_call worker_body
    exact pollLoop_timeout (effective_seconds seconds kwargs) excT msg
      (f args (forwarded_kwargs kwargs)) hT hd K 0 fuel (by simpa using hK) hfuel

/-- Witness for C1: configured bound `1/10` s, a run of `2` s, a custom
exception class and message, under both strategies. -/
theorem spec_c1_timeout_raises_witness :
    (signaler_call (Value.vnum (1/10)) PyClass.runtimeErrorClass
        (some "Timeout exceeded.")
        (fun _ _ => ⟨2, Except.ok (Value.vnum 3), true⟩) [] []
        ⟨Handler.other 0, 0⟩).1
      = Except.error ⟨PyClass.runtimeErrorClass,
          [Value.vstr "Timeout exceeded."]⟩
    ∧ worker_call (Value.vnum (1/10)) PyClass.runtimeErrorClass
        (some "Timeout exceeded.")
        (fun _ _ => ⟨2, Except.ok (Value.vnum 3), true⟩) [] [] 13
      = some (Except.error ⟨PyClass.runtimeErrorClass,
          [Value.vstr "Timeout exceeded."]⟩) := by
  have h := spec_c1_timeout_raises (Value.vnum (1/10))
    PyClass.runtimeErrorClass (some "Timeout exceeded.")
    (fun _ _ => ⟨2, Except.ok (Value.vnum 3), true⟩) [] []
    ⟨Handler.other 0, 0⟩ 11 13
    (by norm_num [effective_seconds, pyTruthy])
    (by norm_num [effective_seconds, forwarded_kwargs, pyNum])
    (by norm_num [effective_seconds, pyNum, pollInterval])
    (by omega)
  exact ⟨h.1, h.2.1⟩

/-- C4 fails on the code: with a falsy decoration-time bound
(`seconds=None`) and a truthy per-call override (`timeout=1`), the
invocation arms the timer and installs the raising handler, but the
`if not seconds:` early return — which tests the decoration-time value,
not the effective one — skips the `try/finally` cleanup, so after a run
that finishes in time the previous handler is not reinstalled and the
interval timer is left armed: the signal state after the call differs
from the state before it. -/
theorem spec_c4_cleanup_skipped :
    (signaler_call Value.vnone PyClass.timeoutErrorClass none
        (fun _ _ => ⟨0, Except.ok (Value.vnum 42), true⟩) []
        [("timeout", Value.vnum 1)] ⟨Handler.other 0, 0⟩).2
      = ⟨Handler.installedRaise PyClass.timeoutErrorClass none, 1⟩
    ∧ (⟨Handler.installedRaise PyClass.timeoutErrorClass none, (1 : ℚ)⟩ : SigState)
      ≠ ⟨Handler.other 0, 0⟩ := by
  constructor
  · norm_num [signaler_call, signaler_body, effective_seconds,
      forwarded_kwargs, pyTruthy, pyNum]
  · intro h
    simp at h

/-- C2 counterexample: under the worker strategy, a call that finishes
at `3/250` s — strictly before the truthy bound of `3/200` s — but
whose published result falls between two polls of the deadline window
raises the configured timeout error instead of returning the value. -/
theorem spec_c2_counterexample :
    (3/250 : ℚ) < 3/200
    ∧ worker_call (Value.vnum (3/200)) PyClass.timeoutErrorClass none
        (fun _ _ => ⟨3/250, Except.ok (Value.vnum 7), true⟩) [] [] 4
      = some (Except.error ⟨PyClass.timeoutErrorClass, []⟩) := by
  constructor
  · norm_num
  · norm_num [worker_call, worker_body, pollLoop, effective_seconds,
      forwarded_kwargs, pyTruthy, pyNum, raise_exception, cancel,
      publishable, published_result, pollInterval, queueResult]

/-- C2 (amended): the decorated call returns the wrapped function's
value unmodified and raises no timeout error whenever the effective
bound is falsy (under the signal strategy for any duration; under the
worker strategy once the publishable result is observed by a poll), or
the run finishes within the bound — where under the worker strategy the
published result must be observed by some poll at or before the
deadline (in particular whenever it is published at least one poll
interval before the bound). -/
theorem spec_c2_value_returned (seconds : Value) (excT : PyClass)
    (msg : Option String) (f : FunSpec) (args : List Value) (kwargs : KwArgs)
    (st : SigState) (n K fuel : Nat) :
    (pyTruthy (effective_seconds seconds kwargs) = false →
      (signaler_call seconds excT msg f args kwargs st).1
        = (f args (forwarded_kwargs kwargs)).outcome)
    ∧ (pyTruthy (effective_seconds seconds kwargs) = true →
       (f args (forwarded_kwargs kwargs)).duration
          ≤ pyNum (effective_seconds seconds kwargs) →
      (signaler_call seconds excT msg f args kwargs st).1
        = (f args (forwarded_kwargs kwargs)).outcome)
    ∧ (pyTruthy (effective_seconds seconds kwargs) = false →
       publishable (f args (forwarded_kwargs kwargs)) = true →
       (f args (forwarded_kwargs kwargs)).duration ≤ (n : ℚ) * pollInterval →
       n + 1 ≤ fuel →
      worker_call seconds excT msg f args kwargs fuel
        = some (f args (forwarded_kwargs kwargs)).outcome)
    ∧ (pyTruthy (effective_seconds seconds kwargs) = true →
       publishable (f args (forwarded_kwargs kwargs)) = true →
       (f args (forwarded_kwargs kwargs)).duration ≤ (K : ℚ) * pollInterval →
       (K : ℚ) * pollInterval ≤ pyNum (effective_seconds seconds kwargs) →
       K + 1 ≤ fuel →
      worker_call seconds excT msg f args kwargs fuel
        = some (f args (forwarded_kwargs kwargs)).outcome) := by
  refine ⟨fun hF => ?_, fun hT hin => ?_, fun hF hp hn hfuel => ?_,
    fun hT hp hK hKlim hfuel => ?_⟩
  · unfold signaler_call
    rw [signaler_body_fst]
    simp [hF]
  · unfold signaler_call
    rw [signaler_body_fst]
    simp [hT, not_lt.mpr hin]
  · unfold worker_call worker_body
    exact pollLoop_published (effective_seconds seconds kwargs) excT msg
      (f args (forwarded_kwargs kwargs)) hp n 0 fuel (by simpa using hn)
      (fun hTr => absurd hTr (by simp [hF])) hfuel
  · unfold worker_call worker_body
    exact pollLoop_published (effective_seconds seconds kwargs) excT msg
      (f args (forwarded_kwargs kwargs)) hp K 0 fuel (by simpa using hK)
      (fun _ => by simpa using hKlim) hfuel

/-- Witness for C2 (amended), at concrete inputs: a falsy bound with a
long run, and a truthy bound `1/5` s with a run of `1/10` s
(one full poll interval of margin), under both strategies. -/
theorem spec_c2_value_returned_witness :
    (signaler_call Value.vnone PyClass.timeoutErrorClass none
        (fun _ _ => ⟨50, Except.ok (Value.vnum 9), true⟩) [] []
        ⟨Handler.other 0, 0⟩).1
      = Except.ok (Value.vnum 9)
    ∧ (signaler_call (Value.vnum (1/5)) PyClass.timeoutErrorClass none
        (fun _ _ => ⟨1/10, Except.ok (Value.vnum 9), true⟩) [] []
        ⟨Handler.other 0, 0⟩).1
      = Except.ok (Value.vnum 9)
    ∧ worker_call Value.vnone PyClass.timeoutErrorClass none
        (fun _ _ => ⟨50, Except.ok (Value.vnum 9), true⟩) [] [] 5001
      = some (Except.ok (Value.vnum 9))
    ∧ worker_call (Value.vnum (1/5)) PyClass.timeoutErrorClass none
        (fun _ _ => ⟨1/10, Except.ok (Value.vnum 9), true⟩) [] [] 11
      = some (Except.ok (Value.vnum 9)) := by
  have h1 := spec_c2_value_returned Value.vnone PyClass.timeoutErrorClass none
    (fun _ _ => ⟨50, Except.ok (Value.vnum 9), true⟩) [] []
    ⟨Handler.other 0, 0⟩ 5000 0 5001
  have h2 := spec_c2_value_returned (Value.vnum (1/5))
    PyClass.timeoutErrorClass none
    (fun _ _ => ⟨1/10, Except.ok (Value.vnum 9), true⟩) [] []
    ⟨Handler.other 0, 0⟩ 0 10 11
  refine ⟨h1.1 (by norm_num [effective_seconds, pyTruthy]), ?_, ?_, ?_⟩
  · exact h2.2.1 (by norm_num [effective_seconds, pyTruthy])
      (by norm_num [effective_seconds, forwarded_kwargs, pyNum])
  · exact h1.2.2.1 (by norm_num [effective_seconds, pyTruthy])
      (by norm_num [forwarded_kwargs, publishable, published_result])
      (by norm_num [forwarded_kwargs, pollInterval]) (by omega)
  · exact h2.2.2.2 (by norm_num [effective_seconds, pyTruthy])
      (by norm_num [forwarded_kwargs, publishable, published_result])
      (by norm_num [forwarded_kwargs, pollInterval])
      (by norm_num [effective_seconds, pyNum, pollInterval]) (by omega)

theorem find?_forwarded_none (kwargs : KwArgs) :
    (forwarded_kwargs kwargs).find? (fun p => p.1 == "timeout") = none := by
  rw [List.find?_eq_none]
  intro x hx
  have hpred := (List.mem_filter.mp hx).2
  simp only [Bool.not_eq_true'] at hpred
  simp [hpred]

theorem lookupTimeout_forwarded (kwargs : KwArgs) :
    lookupTimeout (forwarded_kwargs kwargs) = none := by
  simp [lookupTimeout, find?_forwarded_none]

theorem effective_seconds_forwarded (v : Value) (kwargs : KwArgs) :
    effective_seconds v (forwarded_kwargs kwargs) = v := by
  unfold effective_seconds
  rw [find?_forwarded_none]

theorem forwarded_kwargs_idem (kwargs : KwArgs) :
    forwarded_kwargs (forwarded_kwargs kwargs) = forwarded_kwargs kwargs := by
  simp [forwarded_kwargs, List.filter_filter]

theorem effective_seconds_of_lookup (seconds v : Value) (kwargs : KwArgs)
    (h : lookupTimeout kwargs = some v) :
    effective_seconds seconds kwargs = v := by
  unfold lookupTimeout at h
  unfold effective_seconds
  cases hf : kwargs.find? (fun p => p.1 == "timeout") with
  | none => rw [hf] at h; simp at h
  | some p =>
    rw [hf] at h
    simp at h
    exact h

theorem effective_seconds_of_lookup_none (seconds : Value) (kwargs : KwArgs)
    (h : lookupTimeout kwargs = none) :
    effective_seconds seconds kwargs = seconds := by
  unfold lookupTimeout at h
  unfold effective_seconds
  cases hf : kwargs.find? (fun p => p.1 == "timeout") with
  | none => rfl
  | some p => rw [hf] at h; simp at h

theorem forwarded_of_lookup_none (kwargs : KwArgs)
    (h : lookupTimeout kwargs = none) :
    forwarded_kwargs kwargs = kwargs := by
  unfold lookupTimeout at h
  rw [Option.map_eq_none'] at h
  rw [List.find?_eq_none] at h
  unfold forwarded_kwargs
  rw [List.filter_eq_self]
  intro x hx
  have := h x hx
  simp only [Bool.not_eq_true] at this ⊢
  simp [this]

theorem signaler_body_seconds_truthy (s s' ns : Value) (excT : PyClass)
    (msg : Option String) (f : FunSpec) (args : List Value) (kwargs : KwArgs)
    (st : SigState) (h : pyTruthy s = true) (h' : pyTruthy s' = true) :
    signaler_body s ns excT msg f args kwargs st
      = signaler_body s' ns excT msg f args kwargs st := by
  unfold signaler_body
  simp [h, h']

/-- C6: a reserved `timeout` keyword argument supplied at the call site
overrides the configured bound for that single invocation, is removed
from the keyword arguments before they reach the wrapped function, and
takes precedence under both the signal and the worker strategy; an
invocation without the override resolves the decoration-time bound
again and forwards its keyword arguments untouched. -/
theorem spec_c6_override (seconds v : Value) (excT : PyClass)
    (msg : Option String) (f : FunSpec) (args : List Value) (kwargs : KwArgs)
    (st : SigState) (fuel : Nat) :
    (lookupTimeout kwargs = some v →
      effective_seconds seconds kwargs = v
      ∧ lookupTimeout (forwarded_kwargs kwargs) = none
      ∧ (pyTruthy seconds = true → pyTruthy v = true →
          signaler_call seconds excT msg f args kwargs st
            = signaler_call v excT msg f args (forwarded_kwargs kwargs) st)
      ∧ worker_call seconds excT msg f args kwargs fuel
          = worker_call v excT msg f args (forwarded_kwargs kwargs) fuel)
    ∧ (lookupTimeout kwargs = none →
      effective_seconds seconds kwargs = seconds
      ∧ forwarded_kwargs kwargs = kwargs) := by
  constructor
  · intro h
    refine ⟨effective_seconds_of_lookup seconds v kwargs h,
      lookupTimeout_forwarded kwargs, fun hs hv => ?_, ?_⟩
    · unfold signaler_call
      rw [effective_seconds_of_lookup seconds v kwargs h,
        effective_seconds_forwarded, forwarded_kwargs_idem]
      exact signaler_body_seconds_truthy seconds v v excT msg f args
        (forwarded_kwargs kwargs) st hs hv
    · unfold worker_call
      rw [effective_seconds_of_lookup seconds v kwargs h,
        effective_seconds_forwarded, forwarded_kwargs_idem]
  · intro h
    exact ⟨effective_seconds_of_lookup_none seconds kwargs h,
      forwarded_of_lookup_none kwargs h⟩

/-- Witness for C6: a call site carrying `timeout=1/20` next to an
ordinary keyword argument, and one without the override. -/
theorem spec_c6_override_witness :
    effective_seconds (Value.vnum (3/10))
        [("i", Value.vnum 1), ("timeout", Value.vnum (1/20))]
      = Value.vnum (1/20)
    ∧ lookupTimeout (forwarded_kwargs
        [("i", Value.vnum 1), ("timeout", Value.vnum (1/20))]) = none
    ∧ signaler_call (Value.vnum (3/10)) PyClass.timeoutErrorClass none
        (fun _ _ => ⟨1/10, Except.ok (Value.vnum 8), true⟩) []
        [("i", Value.vnum 1), ("timeout", Value.vnum (1/20))]
        ⟨Handler.other 0, 0⟩
      = signaler_call (Value.vnum (1/20)) PyClass.timeoutErrorClass none
          (fun _ _ => ⟨1/10, Except.ok (Value.vnum 8), true⟩) []
          (forwarded_kwargs
            [("i", Value.vnum 1), ("timeout", Value.vnum (1/20))])
          ⟨Handler.other 0, 0⟩
    ∧ worker_call (Value.vnum (3/10)) PyClass.timeoutErrorClass none
        (fun _ _ => ⟨1/10, Except.ok (Value.vnum 8), true⟩) []
        [("i", Value.vnum 1), ("timeout", Value.vnum (1/20))] 9
      = worker_call (Value.vnum (1/20)) PyClass.timeoutErrorClass none
          (fun _ _ => ⟨1/10, Except.ok (Value.vnum 8), true⟩) []
          (forwarded_kwargs
            [("i", Value.vnum 1), ("timeout", Value.vnum (1/20))]) 9
    ∧ effective_seconds (Value.vnum (3/10)) [("i", Value.vnum 1)]
      = Value.vnum (3/10) := by
  have h := spec_c6_override (Value.vnum (3/10)) (Value.vnum (1/20))
    PyClass.timeoutErrorClass none
    (fun _ _ => ⟨1/10, Except.ok (Value.vnum 8), true⟩) []
    [("i", Value.vnum 1), ("timeout", Value.vnum (1/20))]
    ⟨Handler.other 0, 0⟩ 9
  have h2 := spec_c6_override (Value.vnum (3/10)) (Value.vnum (1/20))
    PyClass.timeoutErrorClass none
    (fun _ _ => ⟨1/10, Except.ok (Value.vnum 8), true⟩) []
    [("i", Value.vnum 1)] ⟨Handler.other 0, 0⟩ 9
  have hsome := h.1 (by simp [lookupTimeout])
  exact ⟨hsome.1, hsome.2.1,
    hsome.2.2.1 (by norm_num [pyTruthy]) (by norm_num [pyTruthy]),
    hsome.2.2.2, (h2.2 (by simp [lookupTimeout])).1⟩

/-- C5: the exception-recovery stage catches exactly the configured
error kind — on such an error it invokes the configured `on_timeout`
fallback with its configured positional and keyword arguments and
returns the fallback's value as the decorated call's result; an error
of any other kind, and a successful result, pass through unmodified;
under the worker strategy the failure-tagged result received from the
worker is re-raised as-is. -/
theorem spec_c5_recovery (excT : PyClass) (msg : Option String)
    (onT : List Value → KwArgs → Except PyExc Value)
    (otArgs : Option (List Value)) (otKw : Option KwArgs) (e : PyExc)
    (v : Value) (seconds : Value) (f : FunSpec) (args : List Value)
    (kwargs : KwArgs) (K fuel : Nat) :
    (subclassOf e.cls excT = true →
      exception_handler (Except.error e) onT excT otArgs otKw
        = onT (otArgs.getD []) (otKw.getD []))
    ∧ (subclassOf e.cls excT = false →
      exception_handler (Except.error e) onT excT otArgs otKw
        = Except.error e)
    ∧ exception_handler (Except.ok v) onT excT otArgs otKw = Except.ok v
    ∧ ((f args (forwarded_kwargs kwargs)).outcome = Except.error e →
       publishable (f args (forwarded_kwargs kwargs)) = true →
       (f args (forwarded_kwargs kwargs)).duration ≤ (K : ℚ) * pollInterval →
       (pyTruthy (effective_seconds seconds kwargs) = true →
         (K : ℚ) * pollInterval ≤ pyNum (effective_seconds seconds kwargs)) →
       K + 1 ≤ fuel →
       worker_call seconds excT msg f args kwargs fuel
         = some (Except.error e)) := by
  refine ⟨fun h => ?_, fun h => ?_, rfl, fun ho hp hK hlim hfuel => ?_⟩
  · simp [exception_handler, exception_handler_core, h]
  · simp [exception_handler, exception_handler_core, h]
  · unfold worker_call worker_body
    rw [pollLoop_published (effective_seconds seconds kwargs) excT msg
      (f args (forwarded_kwargs kwargs)) hp K 0 fuel (by simpa using hK)
      (fun hTr => by simpa using hlim hTr) hfuel, ho]

/-- Witness for C5: a caught `TimeoutError` invokes the fallback on its
configured arguments, a `ValueError` passes through, a success passes
through, and a worker-side `RuntimeError` raised by the wrapped
function is re-raised by the caller. -/
theorem spec_c5_recovery_witness :
    exception_handler (Except.error ⟨PyClass.timeoutErrorClass, []⟩)
        (fun a _ => Except.ok (a.headD Value.vnone)) PyClass.timeoutErrorClass
        (some [Value.vnum 6]) none
      = Except.ok (Value.vnum 6)
    ∧ exception_handler (Except.error ⟨PyClass.valueErrorClass, []⟩)
        (fun a _ => Except.ok (a.headD Value.vnone)) PyClass.timeoutErrorClass
        (some [Value.vnum 6]) none
      = Except.error ⟨PyClass.valueErrorClass, []⟩
    ∧ exception_handler (Except.ok (Value.vnum 2))
        (fun a _ => Except.ok (a.headD Value.vnone)) PyClass.timeoutErrorClass
        (some [Value.vnum 6]) none
      = Except.ok (Value.vnum 2)
    ∧ worker_call Value.vnone PyClass.timeoutErrorClass none
        (fun _ _ => ⟨1/10, Except.error ⟨PyClass.runtimeErrorClass,
          [Value.vstr "boom"]⟩, true⟩) [] [] 11
      = some (Except.error ⟨PyClass.runtimeErrorClass,
          [Value.vstr "boom"]⟩) := by
  have h := spec_c5_recovery PyClass.timeoutErrorClass none
    (fun a _ => Except.ok (a.headD Value.vnone)) (some [Value.vnum 6]) none
    ⟨PyClass.timeoutErrorClass, []⟩ (Value.vnum 2) Value.vnone
    (fun _ _ => ⟨1/10, Except.error ⟨PyClass.runtimeErrorClass,
      [Value.vstr "boom"]⟩, true⟩) [] [] 10 11
  have h2 := spec_c5_recovery PyClass.timeoutErrorClass none
    (fun a _ => Except.ok (a.headD Value.vnone)) (some [Value.vnum 6]) none
    ⟨PyClass.valueErrorClass, []⟩ (Value.vnum 2) Value.vnone
    (fun _ _ => ⟨1/10, Except.error ⟨PyClass.runtimeErrorClass,
      [Value.vstr "boom"]⟩, true⟩) [] [] 10 11
  have h3 := spec_c5_recovery PyClass.timeoutErrorClass none
    (fun a _ => Except.ok (a.headD Value.vnone)) (some [Value.vnum 6]) none
    ⟨PyClass.runtimeErrorClass, [Value.vstr "boom"]⟩ (Value.vnum 2) Value.vnone
    (fun _ _ => ⟨1/10, Except.error ⟨PyClass.runtimeErrorClass,
      [Value.vstr "boom"]⟩, true⟩) [] [] 10 11
  refine ⟨h.1 (by decide), h2.2.1 (by decide), h.2.2.1, ?_⟩
  exact h3.2.2.2 rfl
    (by norm_num [forwarded_kwargs, publishable, published_result,
      subclassOf, ancestors])
    (by norm_num [forwarded_kwargs, pollInterval])
    (by intro hTr; simp [effective_seconds, pyTruthy] at hTr)
    (by omega)

/-- C3: with `retries = N > 0`, the assembled pipeline performs up to
`N + 1` total attempts of the entire bounded call, each attempt a fresh
executor invocation with an independent full timeout window; a
timed-out attempt other than the last triggers a fresh attempt, the
exhausted final attempt falls back to the user-supplied `on_timeout`
when configured and otherwise propagates the natural timeout error, and
an attempt that succeeds ends the pipeline with its value. -/
theorem spec_c3_retry_pipeline (N : Nat) (v : Value) (excT : PyClass)
    (msg : Option String) (fSpec : Nat → FunSpec) (args : List Value)
    (kwargs : KwArgs) (st : SigState) (fb : Unit → Except PyExc Value)
    (E : Nat → Except PyExc Value)
    (hN : 0 < N)
    (hE : ∀ i, E i = (signaler_call v excT msg (fSpec i) args kwargs st).1)
    (hT : pyTruthy (effective_seconds v kwargs) = true) :
    ((∀ i, i ≤ N → pyNum (effective_seconds v kwargs)
        < (fSpec i args (forwarded_kwargs kwargs)).duration) →
      retry_pipeline E excT (some fb) N = (fb (), N + 1)
      ∧ retry_pipeline E excT none N
        = (Except.error (raise_exception excT msg), N + 1))
    ∧ (∀ j vv, j ≤ N →
        (∀ l, l < j → pyNum (effective_seconds v kwargs)
            < (fSpec l args (forwarded_kwargs kwargs)).duration) →
        (fSpec j args (forwarded_kwargs kwargs)).duration
            ≤ pyNum (effective_seconds v kwargs) →
        (fSpec j args (forwarded_kwargs kwargs)).outcome = Except.ok vv →
        ∀ onT, retry_pipeline E excT onT N = (Except.ok vv, j + 1))
    ∧ (∀ onT, (retry_pipeline E excT onT N).2 ≤ N + 1) := by
  have hscls : subclassOf (raise_exception excT msg).cls excT = true := by
    rw [raise_exception_cls]
    exact subclassOf_self excT
  have hEto : ∀ i, pyNum (effective_seconds v kwargs)
      < (fSpec i args (forwarded_kwargs kwargs)).duration →
      E i = Except.error (raise_exception excT msg) := by
    intro i hdi
    rw [hE i]
    unfold signaler_call
    rw [signaler_body_fst]
    simp [hT, hdi]
  refine ⟨fun hall => ⟨?_, ?_⟩, fun j vv hj hfail hin hok onT => ?_,
    fun onT => ?_⟩
  · have h := retry_go_all_timeout E excT (some fb)
      (raise_exception excT msg) hscls N 0
      (fun i hi => by simpa using hEto i (hall i (by omega)))
    unfold retry_pipeline
    rw [h]
    simp
  · have h := retry_go_all_timeout E excT none
      (raise_exception excT msg) hscls N 0
      (fun i hi => by simpa using hEto i (hall i (by omega)))
    unfold retry_pipeline
    rw [h]
    simp
  · have hEok : E j = Except.ok vv := by
      rw [hE j]
      unfold signaler_call
      rw [signaler_body_fst]
      simp [not_lt.mpr hin, hok]
    have h := retry_go_first_success E excT onT
      (raise_exception excT msg) hscls j N 0 vv hj
      (fun l hl => by simpa using hEto l (hfail l hl)) (by simpa using hEok)
    unfold retry_pipeline
    rw [h]
    simp
  · have h := retry_go_attempt_bound E excT onT N 0
    unfold retry_pipeline
    omega

/-- Witness for C3 at concrete inputs: `retries = 2`, bound `1/10` s;
every attempt runs `2` s, so with a fallback the pipeline returns the
fallback value after `3` attempts and without one it propagates the
timeout error after `3` attempts; with the second attempt finishing in
`1/20` s the pipeline returns its value after `2` attempts. -/
theorem spec_c3_retry_pipeline_witness :
    retry_pipeline
        (fun i => (signaler_call (Value.vnum (1/10))
          PyClass.timeoutErrorClass none
          (fun _ _ => ⟨2, Except.ok (Value.vnum 1), true⟩) [] []
          ⟨Handler.other 0, 0⟩).1)
        PyClass.timeoutErrorClass (some (fun _ => Except.ok (Value.vnum 99))) 2
      = (Except.ok (Value.vnum 99), 3)
    ∧ retry_pipeline
        (fun i => (signaler_call (Value.vnum (1/10))
          PyClass.timeoutErrorClass none
          (fun _ _ => ⟨2, Except.ok (Value.vnum 1), true⟩) [] []
          ⟨Handler.other 0, 0⟩).1)
        PyClass.timeoutErrorClass none 2
      = (Except.error ⟨PyClass.timeoutErrorClass, []⟩, 3)
    ∧ retry_pipeline
        (fun i => (signaler_call (Value.vnum (1/10))
          PyClass.timeoutErrorClass none
          (fun _ _ => if i = 0 then ⟨2, Except.ok (Value.vnum 1), true⟩
                      else ⟨1/20, Except.ok (Value.vnum 7), true⟩) [] []
          ⟨Handler.other 0, 0⟩).1)
        PyClass.timeoutErrorClass none 2
      = (Except.ok (Value.vnum 7), 2) := by
  have h := spec_c3_retry_pipeline 2 (Value.vnum (1/10))
    PyClass.timeoutErrorClass none
    (fun i => fun _ _ => ⟨2, Except.ok (Value.vnum 1), true⟩) [] []
    ⟨Handler.other 0, 0⟩ (fun _ => Except.ok (Value.vnum 99)) _
    (by omega) (fun i => rfl)
    (by norm_num [effective_seconds, pyTruthy])
  have hall := h.1 (by
    intro i hi
    norm_num [effective_seconds, forwarded_kwargs, pyNum])
  have h2 := spec_c3_retry_pipeline 2 (Value.vnum (1/10))
    PyClass.timeoutErrorClass none
    (fun i => fun _ _ => if i = 0 then ⟨2, Except.ok (Value.vnum 1), true⟩
                         else ⟨1/20, Except.ok (Value.vnum 7), true⟩) [] []
    ⟨Handler.other 0, 0⟩ (fun _ => Except.ok (Value.vnum 99)) _
    (by omega) (fun i => rfl)
    (by norm_num [effective_seconds, pyTruthy])
  have hsucc := h2.2.1 1 (Value.vnum 7) (by omega)
    (by
      intro l hl
      have hl0 : l = 0 := by omega
      subst hl0
      norm_num [effective_seconds, forwarded_kwargs, pyNum])
    (by norm_num [effective_seconds, forwarded_kwargs, pyNum])
    (by norm_num [forwarded_kwargs]) none
  exact ⟨hall.1, hall.2, hsucc⟩
